import Mathlib

/-!
Shallow embedding of the deposit-request workflow implemented in
`main.py`, `models.py` and `database.py`.

Modelling conventions:
* the SQLAlchemy `transactions` table is a `List Transaction`; a commit of
  the single ORM instance loaded by `scalar_one_or_none` is a first-match
  update of that list (`request_id` carries a unique constraint);
* `context.user_data` is the `UserData` structure below, `none` standing
  both for an absent key and for a stored Python `None` (the two are
  indistinguishable through `dict.get`, the only read the handlers use,
  except for the one `in` test which is noted at its use site);
* machine reals never arise: amounts travel as decimal strings or as the
  `Numeric` column value, both modelled over `ℚ`;
* outbound Telegram calls (send/edit/delete) are modelled as always
  delivered; the claims under study are about the store, the session and
  the control flow, not about transport failures;
* `created_at` / `updated_at` are server-side defaults no claim depends
  on and are omitted from the row.
-/

/-- A Python value stored in `context.user_data`: the handlers put either a
raw message string or a numeric column value there. -/
inductive PyVal where
  | str (s : String)
  | num (q : ℚ)
deriving DecidableEq, Repr

/-- Python truthiness for the `if xbet_id:` / `if amount:` / `if photo_id:`
tests in `finalize_submission`: empty strings and zero are falsy. -/
def PyVal.truthy : PyVal → Bool
  | PyVal.str s => !s.isEmpty
  | PyVal.num q => if q = 0 then false else true

/-- Truthiness of an optional user-data slot (`None` is falsy). -/
def pyTruthy : Option PyVal → Bool
  | some v => v.truthy
  | none => false

/-- Truthiness of a nullable integer column (`None` and `0` are falsy). -/
def intTruthy : Option Int → Bool
  | some n => if n = 0 then false else true
  | none => false

/-- Exceptions the embedded handlers can raise. -/
inductive PyError where
  | valueError
  | typeError
  | attributeError
  | noneError
deriving DecidableEq, Repr

/-- Value of a digit string, most significant digit first. -/
def digitsVal (l : List Char) : Nat :=
  l.foldl (fun n c => 10 * n + (c.toNat - 48)) 0

/-- Model of Python `float(s)` on plain decimal literals: optional
whitespace, optional sign, digits with an optional fractional part.
Exponent and inf/nan forms never reach `float` in this program and are
outside the model. Returns `none` where `float` raises `ValueError`. -/
def parsePyFloat (s : String) : Option ℚ :=
  let cs :=
    ((s.toList.dropWhile Char.isWhitespace).reverse.dropWhile
      Char.isWhitespace).reverse
  let signed : Bool × List Char :=
    match cs with
    | '-' :: r => (true, r)
    | '+' :: r => (false, r)
    | r => (false, r)
  let ip := signed.2.takeWhile Char.isDigit
  let rest := signed.2.dropWhile Char.isDigit
  let core : Option ℚ :=
    match rest with
    | [] => if ip.isEmpty then none else some (digitsVal ip : ℚ)
    | '.' :: r2 =>
      let fp := r2.takeWhile Char.isDigit
      if (r2.dropWhile Char.isDigit).isEmpty && !(ip.isEmpty && fp.isEmpty) then
        some ((digitsVal ip : ℚ) + (digitsVal fp : ℚ) / ((10 : ℚ) ^ fp.length))
      else none
    | _ => none
  core.map (fun q => if signed.1 then -q else q)

/-- Python `float(v)` on a user-data value: strings are parsed, numeric
column values pass through unchanged. -/
def pyFloat : PyVal → Option ℚ
  | PyVal.str s => parsePyFloat s
  | PyVal.num q => some q

/-- String image of a user-data value when assigned to a `String` column. -/
def pyStrOf : PyVal → String
  | PyVal.str s => s
  | PyVal.num q => toString q.num ++ "/" ++ toString q.den

/-- One row of the `transactions` table of `models.py` (lines 15-33).
Note that the model declares no evidence/photo column: `photo_file_id` is
not among its attributes. -/
structure Transaction where
  user_id : Int
  request_id : String
  type : String
  amount : ℚ
  status : String
  admin_id : Option Int
  rejection_reason : Option String
  admin_chat_id : Option Int
  admin_message_id : Option Int
  xbet_id_from_user : Option String
deriving DecidableEq, Repr

/-- The durable store: the `transactions` table. -/
abbrev Store := List Transaction

/-- `session.execute(select(Transaction).filter_by(request_id=rid))`
followed by `scalar_one_or_none()`: `request_id` is unique, so the first
match is the only match. -/
def findTxn (st : Store) (rid : String) : Option Transaction :=
  st.find? (fun t => t.request_id == rid)

/-- Commit of in-place mutations of the single loaded ORM row. -/
def updateTxn : Store → String → (Transaction → Transaction) → Store
  | [], _, _ => []
  | t :: rest, rid, f =>
    if t.request_id == rid then f t :: rest else t :: updateTxn rest rid f

/-- Conversation states, main.py line 50. -/
def ASKING_ID : Int := 0

def ASKING_AMOUNT : Int := 1

def ASKING_SCREENSHOT : Int := 2

/-- `ConversationHandler.END` of python-telegram-bot. -/
def ConversationHandler_END : Int := -1

/-- The per-user `context.user_data` dictionary as the handlers use it. -/
structure UserData where
  mode : Option String := none
  request_id : Option String := none
  xbet_id : Option PyVal := none
  amount : Option PyVal := none
  photo_id : Option PyVal := none
deriving DecidableEq, Repr

/-- `context.user_data.clear()`. -/
def emptyUserData : UserData := {}

/-- Attribute names declared on `models.Transaction` (columns plus the
`user` relationship). -/
def transactionAttrs : List String :=
  ["transaction_id", "user_id", "request_id", "type", "amount", "status",
   "admin_id", "rejection_reason", "admin_chat_id", "admin_message_id",
   "xbet_id_from_user", "created_at", "updated_at", "user"]

/-- Keyword arguments passed to the `Transaction(...)` constructor at
main.py lines 83-87.  The declarative constructor raises `TypeError` as
soon as one of them is not an attribute of the class. -/
def transactionCtorKwargs : List String :=
  ["user_id", "request_id", "type", "amount", "status",
   "xbet_id_from_user", "photo_file_id"]

/-- Outcome shown to the acting admin by a callback handler: `ok` stands
for the affirmative `query.answer(...)`, `conflict` for the alert
(`"Already handled."` / `"Cannot approve."` / `"Cannot reject."`). -/
inductive AdminReply where
  | ok
  | conflict
deriving DecidableEq, Repr

/-- Read phase of `lock_request` (main.py 202-203): SELECT the row. -/
def lockRead (st : Store) (rid : String) : Option Transaction :=
  findTxn st rid

/-- Check-and-write phase of `lock_request` (main.py 204-209): the status
test runs in Python against the previously read row, and the commit is an
unconditional UPDATE of that row — there is no status guard in the write
itself. -/
def lockWrite (st : Store) (rid : String) (adminId : Int)
    (obs : Option Transaction) : Store × AdminReply :=
  match obs with
  | some t =>
    if t.status == "pending" then
      (updateTxn st rid
        (fun u => { u with status := "locked", admin_id := some adminId }),
       AdminReply.ok)
    else (st, AdminReply.conflict)
  | none => (st, AdminReply.conflict)

/-- `lock_request` (main.py 199-209) run without interleaving: the read
immediately followed by the check-and-write. -/
def lock_request (st : Store) (rid : String) (adminId : Int) :
    Store × AdminReply :=
  lockWrite st rid adminId (lockRead st rid)

/-- `approve_request` (main.py 211-222). -/
def approve_request (st : Store) (rid : String) (adminId : Int) :
    Store × AdminReply :=
  match findTxn st rid with
  | some t =>
    if t.status == "locked" && t.admin_id == some adminId then
      (updateTxn st rid (fun u => { u with status := "approved" }),
       AdminReply.ok)
    else (st, AdminReply.conflict)
  | none => (st, AdminReply.conflict)

/-- `reject_request_options` (main.py 224-233): on success it only swaps
the inline keyboard for the three reason buttons; it touches no row. -/
def reject_request_options (st : Store) (rid : String) (adminId : Int) :
    Store × AdminReply :=
  match findTxn st rid with
  | some t =>
    if t.status == "locked" && t.admin_id == some adminId then
      (st, AdminReply.ok)
    else (st, AdminReply.conflict)
  | none => (st, AdminReply.conflict)

/-- The `reasons` dictionary of `request_resubmission` (main.py 239-240). -/
def reasonsMap (reason_code : String) : String :=
  if reason_code == "wrong_id" then "Wrong 1xBet ID"
  else if reason_code == "wrong_amount" then "Wrong Amount"
  else if reason_code == "wrong_slip" then "Wrong/Unclear Screenshot"
  else "Unknown"

/-- Result of `request_resubmission`: not found (line 244), an uncaught
exception, or the correction session handed to the conversation plus the
returned conversation state and the prompt sent to the user. -/
inductive ResubmitResult where
  | notFound
  | err (e : PyError)
  | ok (ud : UserData) (nextState : Int) (prompt : String)
deriving DecidableEq, Repr

/-- `request_resubmission` (main.py 235-274).  The handler never mutates
the row: it deletes/sends admin-channel messages, then rebuilds
`user_data` for the correction.  For every reason code other than
`wrong_slip`, line 262 reads `transaction.photo_file_id` on a freshly
loaded row; `models.Transaction` declares no such attribute, so the read
raises `AttributeError` before the user is prompted. -/
def request_resubmission (st : Store) (rid : String) (reason_code : String) :
    Store × ResubmitResult :=
  match findTxn st rid with
  | none => (st, ResubmitResult.notFound)
  | some t =>
    let ud0 : UserData :=
      { emptyUserData with mode := some "update", request_id := some rid }
    let ud1 : UserData :=
      if reason_code == "wrong_id" then ud0
      else { ud0 with xbet_id := (t.xbet_id_from_user).map PyVal.str }
    let ud2 : UserData :=
      if reason_code == "wrong_amount" then ud1
      else { ud1 with amount := some (PyVal.num t.amount) }
    if reason_code == "wrong_slip" then
      let prompt :=
        "Your deposit was returned.\n<b>Reason:</b> " ++
          reasonsMap reason_code ++ ".\nPlease submit the correct screenshot."
      (st, ResubmitResult.ok ud2 ASKING_SCREENSHOT prompt)
    else (st, ResubmitResult.err PyError.attributeError)

/-- What a conversation handler does next: return a conversation state, or
tail-call `finalize_submission`. -/
inductive NextStep where
  | state (s : Int)
  | finalize
deriving DecidableEq, Repr

/-- `receive_amount` (main.py 181-191): the message text is stored into
the amount slot of `user_data` unconditionally — no parsing, no validation — and
the conversation always advances (the photo-id test in the source is the
key-presence test; a stored photo id is never `None`, so `isNone` agrees
with it). -/
def receive_amount (ud : UserData) (text : String) : UserData × NextStep :=
  let ud1 : UserData := { ud with amount := some (PyVal.str text) }
  if ud1.mode == some "update" then
    if ud1.photo_id.isNone then (ud1, NextStep.state ASKING_SCREENSHOT)
    else (ud1, NextStep.finalize)
  else (ud1, NextStep.state ASKING_SCREENSHOT)

/-- `receive_screenshot` (main.py 193-197): `photo` is the file id of the
largest attached photo, `none` when the message carries no photo. -/
def receive_screenshot (ud : UserData) (photo : Option String) :
    UserData × NextStep :=
  match photo with
  | none => (ud, NextStep.state ASKING_SCREENSHOT)
  | some fid =>
    ({ ud with photo_id := some (PyVal.str fid) }, NextStep.finalize)

/-- External configuration and transport identifiers consumed by
`finalize_submission`: `ADMIN_DEPOSIT_GROUP_ID` and the chat/message id
Telegram assigns to a freshly sent admin message. -/
structure Env where
  adminGroupId : Option Int
  newChatId : Int
  newMsgId : Int
deriving Repr

/-- The row mutations of the update branch of `finalize_submission`
(main.py 76-79): set status `pending`, then conditionally overwrite the
three submitted values.  `admin_id` and `rejection_reason` are never
touched.  `float(amount)` can raise `ValueError` before the commit. -/
def fieldPatch (ud : UserData) (t : Transaction) : Except PyError Transaction :=
  let newXbet : Option String :=
    match ud.xbet_id with
    | some v => if v.truthy then some (pyStrOf v) else t.xbet_id_from_user
    | none => t.xbet_id_from_user
  match ud.amount with
  | some v =>
    if v.truthy then
      match pyFloat v with
      | some q =>
        Except.ok { t with status := "pending",
                           xbet_id_from_user := newXbet, amount := q }
      | none => Except.error PyError.valueError
    else
      Except.ok { t with status := "pending", xbet_id_from_user := newXbet }
  | none => Except.ok { t with status := "pending", xbet_id_from_user := newXbet }

/-- The admin-message bookkeeping of `finalize_submission` (main.py
105-137).  `photoAttr` is the transient `transaction.photo_file_id`
instance attribute set at line 79: when it was never set, `send_photo`
reads a missing attribute and raises.  The transport itself is modelled as
always delivering, so the `except` fallback at 120-127 is not taken. -/
def handlesPatch (env : Env) (photoAttr : Option PyVal) (t : Transaction) :
    Except PyError Transaction :=
  if intTruthy t.admin_chat_id && intTruthy t.admin_message_id then
    match photoAttr with
    | some _ => Except.ok { t with admin_message_id := some env.newMsgId }
    | none => Except.error PyError.attributeError
  else
    match env.adminGroupId with
    | some _ =>
      match photoAttr with
      | some _ =>
        Except.ok { t with admin_chat_id := some env.newChatId,
                           admin_message_id := some env.newMsgId }
      | none => Except.error PyError.attributeError
    | none => Except.ok t

/-- Update branch of `finalize_submission` (main.py 71-80 and 91-139).
The returned store is the state as of the last successful commit: errors
before the first commit leave the table untouched (the session is closed
uncommitted), errors between the two commits keep the first. -/
def finalizeUpdateBody (env : Env) (st : Store) (ud : UserData) :
    Store × Option PyError :=
  match ud.request_id.bind (fun r => (findTxn st r).map (fun t => (r, t))) with
  | none => (st, some PyError.noneError)
  | some (r, t) =>
    match fieldPatch ud t with
    | Except.error e => (st, some e)
    | Except.ok t3 =>
      let photoAttr : Option PyVal :=
        match ud.photo_id with
        | some v => if v.truthy then some v else none
        | none => none
      let st1 := updateTxn st r (fun _ => t3)
      match handlesPatch env photoAttr t3 with
      | Except.error e => (st1, some e)
      | Except.ok t4 => (updateTxn st1 r (fun _ => t4), none)

/-- New-submission branch of `finalize_submission` (main.py 81-139).
Argument evaluation runs `float(amount if amount else 0)` first (possible
`ValueError`), then the declarative constructor checks every keyword
against the class attributes — `photo_file_id` is not one of them, so the
guarded branch below is unreachable and the constructor raises
`TypeError` before `session.add`. -/
def finalizeNewBody (env : Env) (st : Store) (uid : Int) (rid : String)
    (ud : UserData) : Store × Option PyError :=
  match pyFloat (match ud.amount with
                 | some v => if v.truthy then v else PyVal.num 0
                 | none => PyVal.num 0) with
  | none => (st, some PyError.valueError)
  | some amt =>
    if transactionCtorKwargs.all (fun k => transactionAttrs.contains k) then
      let t : Transaction :=
        { user_id := uid, request_id := rid, type := "DEPOSIT",
          amount := amt, status := "pending", admin_id := none,
          rejection_reason := none, admin_chat_id := none,
          admin_message_id := none,
          xbet_id_from_user :=
            match ud.xbet_id with
            | some v => some (pyStrOf v)
            | none => none }
      let st1 := st ++ [t]
      match env.adminGroupId with
      | some _ =>
        (updateTxn st1 rid
          (fun u => { u with admin_chat_id := some env.newChatId,
                             admin_message_id := some env.newMsgId }), none)
      | none => (st1, none)
    else (st, some PyError.typeError)

/-- The `try` body of `finalize_submission` (main.py 69-140), dispatching
on the mode slot of `user_data`. -/
def finalizeBody (env : Env) (st : Store) (uid : Int) (rid : String)
    (ud : UserData) : Store × Option PyError :=
  if ud.mode == some "update" then finalizeUpdateBody env st ud
  else finalizeNewBody env st uid rid ud

/-- Observable outcome of `finalize_submission`: the store after the last
commit, the session dictionary, the returned conversation state, and
whether the user received the final confirmation message (main.py 140,
reached only when the body ran to completion). -/
structure FinalizeResult where
  store : Store
  user_data : UserData
  ret : Int
  userConfirmed : Bool
deriving Repr

/-- `finalize_submission` (main.py 59-145).  The `finally` block closes
the session, clears `user_data` and RETURNS `ConversationHandler.END`;
in Python a `return` inside `finally` swallows any in-flight exception,
so every error of the body is silently discarded. -/
def finalize_submission (env : Env) (st : Store) (uid : Int) (rid : String)
    (ud : UserData) : FinalizeResult :=
  { store := (finalizeBody env st uid rid ud).1,
    user_data := emptyUserData,
    ret := ConversationHandler_END,
    userConfirmed := ((finalizeBody env st uid rid ud).2).isNone }

/-- The first-match update of a committed row is observed back by
`findTxn` whenever the update preserves the key. -/
theorem findTxn_updateTxn_of_found (st : Store) (rid : String)
    (f : Transaction → Transaction) (t : Transaction)
    (hfind : findTxn st rid = some t) (hf : (f t).request_id = t.request_id) :
    findTxn (updateTxn st rid f) rid = some (f t) := by
  revert hfind
  induction st with
  | nil => intro hfind; simp [findTxn] at hfind
  | cons u rest ih =>
    intro hfind
    cases h : u.request_id == rid with
    | true =>
      have hu : u = t := by simpa [findTxn, h] using hfind
      subst hu
      simp [findTxn, updateTxn, h, hf]
    | false =>
      simp only [updateTxn, h, Bool.false_eq_true, if_false]
      simp only [findTxn] at hfind ⊢
      simp [h] at hfind ⊢
      exact ih hfind

/-- A fresh pending deposit request, as a row of the table. -/
def raceTxn : Transaction :=
  { user_id := 10, request_id := "R1", type := "DEPOSIT", amount := 100,
    status := "pending", admin_id := none, rejection_reason := none,
    admin_chat_id := none, admin_message_id := none,
    xbet_id_from_user := some "u1" }

/-- A table holding exactly the pending request `R1`. -/
def raceStore : Store := [raceTxn]

/-- A configured deployment: the admin group is set, and Telegram assigns
chat id -100 / message id 555 to the next sent admin message. -/
def env0 : Env := { adminGroupId := some (-100), newChatId := -100, newMsgId := 555 }

/-- C1: the claim says `lock_request` is a single atomic compare-and-set,
so that concurrent claims yield exactly one success.  In the code the
SELECT (`lockRead`, main.py 202-203) and the status-checked commit
(`lockWrite`, main.py 204-209) are separate store operations with no
status guard on the UPDATE itself.  Under the schedule where both admins
read before either writes, both calls report success and the final
`claimed_by` is the last writer — two successes, not one. -/
theorem lock_request_read_then_write_race :
    (lockWrite raceStore "R1" 1 (lockRead raceStore "R1")).2 = AdminReply.ok ∧
    (lockWrite (lockWrite raceStore "R1" 1 (lockRead raceStore "R1")).1 "R1" 2
      (lockRead raceStore "R1")).2 = AdminReply.ok ∧
    ((findTxn (lockWrite (lockWrite raceStore "R1" 1 (lockRead raceStore "R1")).1
        "R1" 2 (lockRead raceStore "R1")).1 "R1").map
      (fun t => t.admin_id)) = some (some 2) := by
  decide

/-- C2: run without interleaving, `lock_request` succeeds exactly when the
row exists with status `pending`; success rewrites that row to `locked`
with `claimed_by` the acting admin; every conflict leaves the table
untouched. -/
theorem lock_request_contract (st : Store) (rid : String) (a : Int) :
    ((lock_request st rid a).2 = AdminReply.ok ↔
      ∃ t, findTxn st rid = some t ∧ t.status = "pending") ∧
    (∀ t, findTxn st rid = some t → t.status = "pending" →
      findTxn (lock_request st rid a).1 rid =
        some { t with status := "locked", admin_id := some a }) ∧
    ((lock_request st rid a).2 = AdminReply.conflict →
      (lock_request st rid a).1 = st) := by
  refine ⟨?_, ?_, ?_⟩
  · cases hfind : findTxn st rid with
    | none => simp [lock_request, lockWrite, lockRead, hfind]
    | some t =>
      cases hst : t.status == "pending" with
      | true =>
        have hst2 : t.status = "pending" := by simpa using hst
        simp [lock_request, lockWrite, lockRead, hfind, hst, hst2]
      | false =>
        have hst2 : ¬t.status = "pending" := by simpa using hst
        simp [lock_request, lockWrite, lockRead, hfind, hst, hst2]
  · intro t hfind hpend
    have hb : (t.status == "pending") = true := by simpa using hpend
    have hred : (lock_request st rid a).1 =
        updateTxn st rid
          (fun u => { u with status := "locked", admin_id := some a }) := by
      simp [lock_request, lockWrite, lockRead, hfind, hb]
    rw [hred]
    exact findTxn_updateTxn_of_found st rid _ t hfind rfl
  · cases hfind : findTxn st rid with
    | none => simp [lock_request, lockWrite, lockRead, hfind]
    | some t =>
      cases hst : t.status == "pending" with
      | true => simp [lock_request, lockWrite, lockRead, hfind, hst]
      | false => simp [lock_request, lockWrite, lockRead, hfind, hst]

/-- C2 witness: admin 7 claims the concrete pending request `R1`; the row
becomes `locked` owned by 7, and a subsequent claim by admin 8 leaves the
store unchanged. -/
theorem lock_request_contract_witness :
    findTxn (lock_request raceStore "R1" 7).1 "R1" =
      some { raceTxn with status := "locked", admin_id := some 7 } ∧
    (lock_request (lock_request raceStore "R1" 7).1 "R1" 8).1 =
      (lock_request raceStore "R1" 7).1 :=
  And.intro
    ((lock_request_contract raceStore "R1" 7).2.1 raceTxn (by decide) (by decide))
    ((lock_request_contract (lock_request raceStore "R1" 7).1 "R1" 8).2.2
      (by decide))

/-- C6: `approve_request` succeeds exactly when the row is `locked` and
owned by the caller, and `reject_request_options` accepts exactly the
same precondition; every other caller/state gets the conflict alert with
the table untouched (reject never writes the table at all). -/
theorem decision_ownership_guard (st : Store) (rid : String) (a : Int) :
    ((approve_request st rid a).2 = AdminReply.ok ↔
      ∃ t, findTxn st rid = some t ∧ t.status = "locked" ∧
        t.admin_id = some a) ∧
    ((approve_request st rid a).2 = AdminReply.conflict →
      (approve_request st rid a).1 = st) ∧
    ((reject_request_options st rid a).2 = AdminReply.ok ↔
      ∃ t, findTxn st rid = some t ∧ t.status = "locked" ∧
        t.admin_id = some a) ∧
    ((reject_request_options st rid a).1 = st) := by
  refine ⟨?_, ?_, ?_, ?_⟩
  · cases hfind : findTxn st rid with
    | none => simp [approve_request, hfind]
    | some t =>
      cases hc : (t.status == "locked" && t.admin_id == some a) with
      | true =>
        have hc2 : t.status = "locked" ∧ t.admin_id = some a := by
          simpa [Bool.and_eq_true] using hc
        simp [approve_request, hfind, hc, hc2.1, hc2.2]
      | false =>
        have hc2 : ¬(t.status = "locked" ∧ t.admin_id = some a) := by
          intro hand
          rw [hand.1, hand.2] at hc
          simp at hc
        simpa [approve_request, hfind, hc] using hc2
  · cases hfind : findTxn st rid with
    | none => simp [approve_request, hfind]
    | some t =>
      cases hc : (t.status == "locked" && t.admin_id == some a) with
      | true => simp [approve_request, hfind, hc]
      | false => simp [approve_request, hfind, hc]
  · cases hfind : findTxn st rid with
    | none => simp [reject_request_options, hfind]
    | some t =>
      cases hc : (t.status == "locked" && t.admin_id == some a) with
      | true =>
        have hc2 : t.status = "locked" ∧ t.admin_id = some a := by
          simpa [Bool.and_eq_true] using hc
        simp [reject_request_options, hfind, hc, hc2.1, hc2.2]
      | false =>
        have hc2 : ¬(t.status = "locked" ∧ t.admin_id = some a) := by
          intro hand
          rw [hand.1, hand.2] at hc
          simp at hc
        simpa [reject_request_options, hfind, hc] using hc2
  · cases hfind : findTxn st rid with
    | none => simp [reject_request_options, hfind]
    | some t =>
      cases hc : (t.status == "locked" && t.admin_id == some a) with
      | true => simp [reject_request_options, hfind, hc]
      | false => simp [reject_request_options, hfind, hc]

/-- The spec scenario row: request `DEP-AB12Q9` in status `locked`, owned
by admin 99, external id `u1`, amount 10000, with an admin message handle. -/
def c3Txn : Transaction :=
  { user_id := 1, request_id := "DEP-AB12Q9", type := "DEPOSIT",
    amount := 10000, status := "locked", admin_id := some 99,
    rejection_reason := none, admin_chat_id := some 77,
    admin_message_id := some 88, xbet_id_from_user := some "u1" }

/-- A table holding exactly the locked request `DEP-AB12Q9`. -/
def c3Store : Store := [c3Txn]

/-- C6 witness: admin 5 (not the claimant 99) can neither approve nor
reject the locked request, and the store stays as it was. -/
theorem decision_ownership_guard_witness :
    (approve_request c3Store "DEP-AB12Q9" 5).1 = c3Store ∧
    (reject_request_options c3Store "DEP-AB12Q9" 5).1 = c3Store :=
  And.intro
    ((decision_ownership_guard c3Store "DEP-AB12Q9" 5).2.1 (by decide))
    (decision_ownership_guard c3Store "DEP-AB12Q9" 5).2.2.2

/-- C9: a row in status `approved` is terminal — claim, approve and reject
all answer the conflict alert and return the store unchanged, so status,
reason and claimant are preserved. -/
theorem approved_terminal (st : Store) (rid : String) (a : Int)
    (t : Transaction) (hfind : findTxn st rid = some t)
    (hst : t.status = "approved") :
    lock_request st rid a = (st, AdminReply.conflict) ∧
    approve_request st rid a = (st, AdminReply.conflict) ∧
    reject_request_options st rid a = (st, AdminReply.conflict) := by
  have h1 : (t.status == "pending") = false := by simp [hst]
  have h2 : (t.status == "locked") = false := by simp [hst]
  refine ⟨?_, ?_, ?_⟩
  · simp [lock_request, lockWrite, lockRead, hfind, h1]
  · simp [approve_request, hfind, h2]
  · simp [reject_request_options, hfind, h2]

/-- The scenario row after approval: `DEP-AB12Q9` approved by admin 99. -/
def approvedTxn : Transaction := { c3Txn with status := "approved" }

/-- A table holding exactly the approved request. -/
def approvedStore : Store := [approvedTxn]

/-- C9 witness: on the concrete approved request, claim, approve and
reject (from admin 5, and the claim from any admin) all conflict and the
store is unchanged. -/
theorem approved_terminal_witness :
    lock_request approvedStore "DEP-AB12Q9" 5 =
      (approvedStore, AdminReply.conflict) ∧
    approve_request approvedStore "DEP-AB12Q9" 5 =
      (approvedStore, AdminReply.conflict) ∧
    reject_request_options approvedStore "DEP-AB12Q9" 5 =
      (approvedStore, AdminReply.conflict) :=
  approved_terminal approvedStore "DEP-AB12Q9" 5 approvedTxn (by decide) (by decide)

/-- C5 counterexample: the claim says rejecting a locked request sets its
status to `rejected` and stores the reason in the record.  On the
concrete locked request, the reject button handler succeeds without
writing the table, the resubmission handler also leaves the table
unchanged, and the row afterwards is still `locked` with a null
`rejection_reason` — in particular its status is not `rejected`. -/
theorem reject_does_not_set_rejected_cex :
    reject_request_options c3Store "DEP-AB12Q9" 99 = (c3Store, AdminReply.ok) ∧
    (request_resubmission c3Store "DEP-AB12Q9" "wrong_slip").1 = c3Store ∧
    ((findTxn (request_resubmission c3Store "DEP-AB12Q9" "wrong_slip").1
        "DEP-AB12Q9").map (fun t => (t.status, t.rejection_reason)))
      = some ("locked", none) ∧
    (((findTxn (request_resubmission c3Store "DEP-AB12Q9" "wrong_slip").1
        "DEP-AB12Q9").map (fun t => t.status)) == some "rejected") = false := by
  decide

/-- C5 amended: when the claiming admin rejects a locked request with a
reason code, the operation performs no mutation of the request record —
it neither sets status to `rejected` nor stores the rejection reason.
Formally: on every input, both reject handlers return the table exactly
as it was. -/
theorem reject_leaves_record_unchanged (st : Store) (rid : String)
    (a : Int) (reason : String) :
    (reject_request_options st rid a).1 = st ∧
    (request_resubmission st rid reason).1 = st := by
  constructor
  · cases hfind : findTxn st rid with
    | none => simp [reject_request_options, hfind]
    | some t =>
      cases hc : (t.status == "locked" && t.admin_id == some a) with
      | true => simp [reject_request_options, hfind, hc]
      | false => simp [reject_request_options, hfind, hc]
  · cases hfind : findTxn st rid with
    | none => simp [request_resubmission, hfind]
    | some t =>
      cases hr : (reason == "wrong_slip") with
      | true => simp [request_resubmission, hfind, hr]
      | false => simp [request_resubmission, hfind, hr]

/-- A fresh new-submission session as `deposit_start` creates it
(main.py 167): cleared user_data with mode `new`. -/
def newSession : UserData := { mode := some "new" }

/-- C7 counterexample: the claim says non-decimal text at the amount step
is rejected, re-prompting the same step with nothing stored.  The handler
stores the raw text `abc` — which `float` cannot parse — and advances to
the screenshot step anyway. -/
theorem receive_amount_accepts_nonnumeric_cex :
    receive_amount newSession "abc" =
      ({ newSession with amount := some (PyVal.str "abc") },
        NextStep.state ASKING_SCREENSHOT) ∧
    parsePyFloat "abc" = none := by
  decide

/-- C7 amended: `receive_amount` performs no validation at all — it stores
the submitted text verbatim into the session and, for a new submission,
always advances to the screenshot step; a non-numeric amount only
surfaces later, inside `finalize_submission`, when `float` runs over the
stored text. -/
theorem receive_amount_stores_raw_text (ud : UserData) (text : String) :
    (receive_amount ud text).1 =
      { ud with amount := some (PyVal.str text) } ∧
    (ud.mode ≠ some "update" →
      (receive_amount ud text).2 = NextStep.state ASKING_SCREENSHOT) := by
  constructor
  · simp only [receive_amount]
    split
    · split
      · rfl
      · rfl
    · rfl
  · intro hm
    have hb : (ud.mode == some "update") = false := by simpa using hm
    simp [receive_amount, hb]

/-- C7 amended witness: numeric-looking or not, the text is stored and
the new-submission conversation advances. -/
theorem receive_amount_stores_raw_text_witness :
    (receive_amount newSession "12").2 = NextStep.state ASKING_SCREENSHOT :=
  (receive_amount_stores_raw_text newSession "12").2 (by decide)

/-- The session collected by a complete fresh submission: external id
`u1`, amount text `100`, evidence reference `p1`. -/
def newSubSession : UserData :=
  { mode := some "new", xbet_id := some (PyVal.str "u1"),
    amount := some (PyVal.str "100"), photo_id := some (PyVal.str "p1") }

/-- C8: the claim says the durable record carries the collected evidence
reference.  `models.Transaction` declares no evidence column, yet main.py
passes `photo_file_id` to the declarative constructor, which therefore
raises before `session.add`: the new-submission body always errors and
never changes the table, so no stored row — with or without an evidence
field — ever results from a fresh submission.  On the concrete
scenario the table stays empty and the user gets no confirmation. -/
theorem no_evidence_column_new_submission_fails :
    (transactionAttrs.contains "photo_file_id") = false ∧
    (transactionCtorKwargs.contains "photo_file_id") = true ∧
    (∀ env st uid rid ud,
      ((finalizeNewBody env st uid rid ud).2).isSome = true ∧
      (finalizeNewBody env st uid rid ud).1 = st) ∧
    (finalize_submission env0 ([] : Store) 10 "DEP-AAAAAA" newSubSession).store
      = ([] : Store) ∧
    (finalize_submission env0 ([] : Store) 10 "DEP-AAAAAA"
      newSubSession).userConfirmed = false := by
  refine ⟨by decide, by decide, ?_, by decide, by decide⟩
  intro env st uid rid ud
  have hg : (transactionCtorKwargs.all (fun k => transactionAttrs.contains k))
      = false := by decide
  unfold finalizeNewBody
  split
  · exact ⟨rfl, rfl⟩
  · rw [hg]
    simp

/-- C10: the `return` inside the `finally` block makes
`finalize_submission` total: for every input it returns
`ConversationHandler.END` with the session dictionary cleared — and
bodies do raise (for instance on a non-numeric stored amount), in which
case the table is left exactly as it was and the user receives no
confirmation, yet the conversation still ends silently. -/
theorem finalize_submission_always_ends :
    (∀ env st uid rid ud,
      (finalize_submission env st uid rid ud).ret = ConversationHandler_END ∧
      (finalize_submission env st uid rid ud).user_data = emptyUserData) ∧
    (∃ env st uid rid ud,
      ((finalizeBody env st uid rid ud).2).isSome = true ∧
      (finalize_submission env st uid rid ud).store = st ∧
      (finalize_submission env st uid rid ud).userConfirmed = false) := by
  constructor
  · intro env st uid rid ud
    exact ⟨rfl, rfl⟩
  · refine ⟨env0, [], 10, "R1",
      { mode := none, amount := some (PyVal.str "abc") }, ?_, ?_, ?_⟩ <;> decide


/-- The update field patch of the update branch never touches the key or the
claimant. -/
theorem fieldPatch_preserves (ud : UserData) (t u : Transaction)
    (h : fieldPatch ud t = Except.ok u) :
    u.request_id = t.request_id ∧ u.admin_id = t.admin_id := by
  simp only [fieldPatch] at h
  split at h
  · split at h
    · split at h
      · cases h
        exact ⟨rfl, rfl⟩
      · cases h
    · cases h
      exact ⟨rfl, rfl⟩
  · cases h
    exact ⟨rfl, rfl⟩

/-- The message-handle patch never touches the key or the claimant. -/
theorem handlesPatch_preserves (env : Env) (p : Option PyVal)
    (t u : Transaction) (h : handlesPatch env p t = Except.ok u) :
    u.request_id = t.request_id ∧ u.admin_id = t.admin_id := by
  simp only [handlesPatch] at h
  split at h
  · split at h
    · cases h
      exact ⟨rfl, rfl⟩
    · cases h
  · split at h
    · split at h
      · cases h
        exact ⟨rfl, rfl⟩
      · cases h
    · cases h
      exact ⟨rfl, rfl⟩

/-- The correction session the spec prescribes for a `wrong_amount`
rejection of `c3Txn`: mode update, target id, external id and evidence
carried over, amount left to collect.  The code itself cannot build this
session — `request_resubmission` raises first — so it is supplied
directly in order to evaluate the finalizer on the scenario of the spec. -/
def c3Session : UserData :=
  { mode := some "update", request_id := some "DEP-AB12Q9",
    xbet_id := some (PyVal.str "u1"), amount := none,
    photo_id := some (PyVal.str "p0") }

/-- The table after the user answers `15000` and the finalizer runs. -/
def c3FinalStore : Store :=
  (finalize_submission env0 c3Store 1 "DEP-NEW123"
    (receive_amount c3Session "15000").1).store

/-- C3: two divergences from the claim on the very scenario of the spec.
First, the correction flow for `wrong_amount` cannot start: line 262 of
main.py reads `transaction.photo_file_id`, an attribute `models.Transaction`
does not declare, so `request_resubmission` raises `AttributeError`.
Second, even given the correction session the spec prescribes, the
finalizer does update the same row in place — corrected amount 15000,
external id `u1` preserved, status back to `pending` — but it never
clears `claimed_by`: `admin_id` stays 99 where the claim requires null. -/
theorem resubmission_correction_bug :
    (request_resubmission c3Store "DEP-AB12Q9" "wrong_amount").2
      = ResubmitResult.err PyError.attributeError ∧
    (receive_amount c3Session "15000").2 = NextStep.finalize ∧
    ((findTxn c3FinalStore "DEP-AB12Q9").map
      (fun t => (t.status, t.amount, t.xbet_id_from_user, t.admin_id)))
      = some ("pending", (15000 : ℚ), some "u1", some 99) ∧
    ((((findTxn c3FinalStore "DEP-AB12Q9").map (fun t => t.admin_id)))
      == some none) = false := by
  decide

/-- Store after admin 7 claims the pending request `R1`. -/
def lockedStore : Store := (lock_request raceStore "R1" 7).1

/-- The correction session the code builds for a `wrong_slip` rejection
of the locked `R1` (the one reason code that does not crash), completed
by the user sending the new screenshot `p2`. -/
def resubSession : UserData :=
  match (request_resubmission lockedStore "R1" "wrong_slip").2 with
  | ResubmitResult.ok ud _ _ => (receive_screenshot ud (some "p2")).1
  | _ => emptyUserData

/-- The table after that resubmission finalizes. -/
def resubFinalStore : Store :=
  (finalize_submission env0 lockedStore 10 "DEP-NEW456" resubSession).store

/-- C4 counterexample: after claim by admin 7 and a completed
`wrong_slip` resubmission, the row is back in status `pending` while
`claimed_by` is still 7 — refuting both "claimed_by is set iff status is
locked/approved/rejected" and "it is cleared when the request re-enters
pending". -/
theorem claimed_by_invariant_cex :
    ((findTxn resubFinalStore "R1").map (fun t => (t.status, t.admin_id)))
      = some ("pending", some 7) ∧
    ((["locked", "approved", "rejected"] : List String).contains "pending")
      = false := by
  decide

/-- C4 amended: `claimed_by` starts null and is set by a successful
claim; approve, reject and the resubmission finalizer never modify it —
in particular the resubmission that returns a request to `pending` does
NOT clear it — so a non-null `claimed_by` does not imply status is in
{locked, approved, rejected}, and a later claim from the re-entered
pending state simply overwrites it. -/
theorem claimed_by_lifecycle_amended (st : Store) (rid : String) (a : Int)
    (reason : String) (env : Env) (uid : Int) (nrid : String)
    (ud : UserData) :
    ((findTxn (approve_request st rid a).1 rid).map (fun t => t.admin_id)
      = (findTxn st rid).map (fun t => t.admin_id)) ∧
    ((reject_request_options st rid a).1 = st) ∧
    ((request_resubmission st rid reason).1 = st) ∧
    (ud.mode = some "update" → ud.request_id = some rid →
      (findTxn (finalize_submission env st uid nrid ud).store rid).map
          (fun t => t.admin_id)
        = (findTxn st rid).map (fun t => t.admin_id)) ∧
    (∀ t, findTxn st rid = some t → t.status = "pending" →
      (findTxn (lock_request st rid a).1 rid).map (fun t => t.admin_id)
        = some (some a)) := by
  refine ⟨?_, ?_, ?_, ?_, ?_⟩
  · cases hfind : findTxn st rid with
    | none => simp [approve_request, hfind]
    | some t =>
      cases hc : (t.status == "locked" && t.admin_id == some a) with
      | false => simp [approve_request, hfind, hc]
      | true =>
        have h1 := findTxn_updateTxn_of_found st rid
          (fun u => { u with status := "approved" }) t hfind rfl
        simp [approve_request, hfind, hc, h1]
  · cases hfind : findTxn st rid with
    | none => simp [reject_request_options, hfind]
    | some t =>
      cases hc : (t.status == "locked" && t.admin_id == some a) with
      | true => simp [reject_request_options, hfind, hc]
      | false => simp [reject_request_options, hfind, hc]
  · cases hfind : findTxn st rid with
    | none => simp [request_resubmission, hfind]
    | some t =>
      cases hr2 : (reason == "wrong_slip") with
      | true => simp [request_resubmission, hfind, hr2]
      | false => simp [request_resubmission, hfind, hr2]
  · intro hm hr
    have hbm : (ud.mode == some "update") = true := by simp [hm]
    have hstore : (finalize_submission env st uid nrid ud).store
        = (finalizeUpdateBody env st ud).1 := by
      simp [finalize_submission, finalizeBody, hbm]
    rw [hstore]
    cases hfind : findTxn st rid with
    | none =>
      have hred : finalizeUpdateBody env st ud = (st, some PyError.noneError) := by
        simp [finalizeUpdateBody, hr, hfind]
      rw [hred]
      simp [hfind]
    | some t =>
      cases hfp : fieldPatch ud t with
      | error e =>
        have hred : finalizeUpdateBody env st ud = (st, some e) := by
          simp [finalizeUpdateBody, hr, hfind, hfp]
        rw [hred]
        simp [hfind]
      | ok t3 =>
        obtain ⟨hp1, hp2⟩ := fieldPatch_preserves ud t t3 hfp
        have h1 := findTxn_updateTxn_of_found st rid (fun _ => t3) t hfind hp1
        cases hh : handlesPatch env (match ud.photo_id with
            | some v => if v.truthy then some v else none
            | none => none) t3 with
        | error e =>
          have hred : (finalizeUpdateBody env st ud).1
              = updateTxn st rid (fun _ => t3) := by
            simp [finalizeUpdateBody, hr, hfind, hfp, hh]
          rw [hred]
          simp [h1, hfind, hp2]
        | ok t4 =>
          obtain ⟨hq1, hq2⟩ := handlesPatch_preserves env _ t3 t4 hh
          have h2 := findTxn_updateTxn_of_found
            (updateTxn st rid (fun _ => t3)) rid (fun _ => t4) t3 h1 hq1
          have hred : (finalizeUpdateBody env st ud).1
              = updateTxn (updateTxn st rid (fun _ => t3)) rid
                  (fun _ => t4) := by
            simp [finalizeUpdateBody, hr, hfind, hfp, hh]
          rw [hred]
          simp [h2, hfind, hq2, hp2]
  · intro t hfind hpend
    have hb : (t.status == "pending") = true := by simpa using hpend
    have h1 := findTxn_updateTxn_of_found st rid
      (fun u => { u with status := "locked", admin_id := some a }) t hfind rfl
    simp [lock_request, lockWrite, lockRead, hfind, hb, h1]

/-- C4 amended witness: on the spec scenario, finishing the correction
leaves `claimed_by` exactly as it was (99), and a fresh claim on the
pending `R1` sets it to the claiming admin 7. -/
theorem claimed_by_lifecycle_amended_witness :
    ((findTxn (finalize_submission env0 c3Store 1 "DEP-NEW123"
        (receive_amount c3Session "15000").1).store "DEP-AB12Q9").map
      (fun t => t.admin_id)
      = (findTxn c3Store "DEP-AB12Q9").map (fun t => t.admin_id)) ∧
    ((findTxn (lock_request raceStore "R1" 7).1 "R1").map
      (fun t => t.admin_id) = some (some 7)) :=
  And.intro
    ((claimed_by_lifecycle_amended c3Store "DEP-AB12Q9" 7 "wrong_slip" env0 1
        "DEP-NEW123" (receive_amount c3Session "15000").1).2.2.2.1
      (by decide) (by decide))
    ((claimed_by_lifecycle_amended raceStore "R1" 7 "wrong_slip" env0 1
        "DEP-NEW123" emptyUserData).2.2.2.2 raceTxn (by decide) (by decide))
